import Mathlib

/-
Verification of the jupylot error-button extension (src/src/index.ts)
against its natural-language specification. The definitions below are a
shallow embedding of the extension: the session configuration record, the
cell scan, the injected Analyze Error control, the configuration dialog,
the click handler with its credential guard, the request construction and
the settlement of the remote call.
-/

namespace Jupylot

/-- The session configuration record (index.ts, interface Config): SECRET_KEY
is the credential, LANGUAGE the target language, PROMPT the prompt template. -/
structure Config where
  SECRET_KEY : String
  LANGUAGE : String
  PROMPT : String
deriving DecidableEq

/-- The initial Configuration constant (index.ts lines 25-31): empty
credential, language KR, the preset Korean prompt template. -/
def defaultConfiguration : Config :=
  { SECRET_KEY := ""
  , LANGUAGE := "KR"
  , PROMPT := "\n  파이썬 에러메시지 보고 에러의 이유를 요약해서 알려줘 (형식: 에러 이유: ~~ \n 해결 방법 : ~~)\n  " }

/-- One output entry of a cell: its tag (the source reads output type at
index.ts line 150) and the data record, modelled as an association list from
mime key to payload; the source reads data at key
application/vnd.jupyter.stderr, which may be absent. -/
structure Output where
  type : String
  data : List (String × String)
deriving DecidableEq

/-- A cell as the scan sees it: the model type string (cell.model.type) and
the ordered output list. -/
structure CellModel where
  cellType : String
  outputs : List Output
deriving DecidableEq

/-- The children the extension appends to the cell render region: how many
Analyze Error buttons and how many result output areas are attached. -/
structure CellNode where
  controls : Nat
  resultRegions : Nat
deriving DecidableEq

/-- The guard of checkForErrors (index.ts line 150): the output list is
non-empty and the entry at index 0 has tag error. -/
def checkFlag (m : CellModel) : Bool :=
  match m.outputs with
  | [] => false
  | o :: _ => o.type == "error"

/-- errorMessage (index.ts line 151): the payload of the first output entry
at key application/vnd.jupyter.stderr; none when the key is missing. -/
def errorMessageOf (m : CellModel) : Option String :=
  match m.outputs with
  | [] => none
  | o :: _ => o.data.lookup "application/vnd.jupyter.stderr"

/-- Effect of one call of checkForErrors (index.ts lines 149-215) on the cell
render region: when the guard holds, a freshly created button is appended
(line 213); the function never removes or replaces anything. -/
def checkForErrors (m : CellModel) (node : CellNode) : CellNode :=
  if checkFlag m then { node with controls := node.controls + 1 } else node

/-- The widgetAdded and cells.changed handlers (index.ts lines 100-119) call
checkForErrors only for cells whose model type is code. -/
def scanCell (m : CellModel) (node : CellNode) : CellNode :=
  if m.cellType == "code" then checkForErrors m node else node

/-- Outcome of showDialog together with the values typed into the three
InputDialog fields (index.ts lines 55-61). -/
structure DialogResult where
  accept : Bool
  value : Config
deriving DecidableEq

/-- The shared dialog accept branch (index.ts lines 82-87 and 164-169): when
the dialog is accepted all three Configuration fields are overwritten with
the typed values; when cancelled nothing is changed. -/
def applyDialog (cfg : Config) (r : DialogResult) : Config :=
  if r.accept then
    { SECRET_KEY := r.value.SECRET_KEY
    , LANGUAGE := r.value.LANGUAGE
    , PROMPT := r.value.PROMPT }
  else cfg

/-- The HTTP request issued by getErrorAnalysis (index.ts lines 125-141). -/
structure Request where
  url : String
  model : String
  messages : List (String × String)
  headers : List (String × String)
deriving DecidableEq

/-- Prompt construction (index.ts line 183): Configuration.PROMPT plus the
optional chain on errorMessage; when errorMessage is undefined the optional
chain yields undefined and JavaScript string concatenation renders it as the
literal text undefined. -/
def mkPrompt (PROMPT : String) (errorMessage : Option String) : String :=
  PROMPT ++ (match errorMessage with
    | some s => s
    | none => "undefined")

/-- Request construction inside getErrorAnalysis (index.ts lines 127-141):
fixed url and model, a single user message carrying the prompt, json content
type and a bearer authorization header built from the credential. -/
def buildRequest (prompt SECRET_KEY : String) : Request :=
  { url := "https://api.openai.com/v1/chat/completions"
  , model := "gpt-3.5-turbo"
  , messages := [("user", prompt)]
  , headers :=
      [ ("Content-Type", "application/json")
      , ("Authorization", "Bearer " ++ SECRET_KEY) ] }

/-- The request one activation issues (index.ts lines 182-185): the prompt is
built from the stored template and the captured error message, the credential
is the stored secret key. -/
def requestOf (cfg : Config) (e : Option String) : Request :=
  buildRequest (mkPrompt cfg.PROMPT e) cfg.SECRET_KEY

/-- A chat message of the completion response. -/
structure Message where
  role : String
  content : String
deriving DecidableEq

/-- One choice of the completion response. -/
structure Choice where
  message : Message
deriving DecidableEq

/-- The completion response body, as far as the source reads it. -/
structure ApiResponse where
  choices : List Choice
deriving DecidableEq

/-- The explanation extraction (index.ts line 142): the content of the
message of the choice at index 0. -/
def extractExplanation (r : ApiResponse) : Option String :=
  r.choices.head?.map fun c => c.message.content

/-- Observable synchronous outcome of one activation of the Analyze Error
control (index.ts lines 156-212): the configuration after the credential
guard, the disabled flag of the control, the fresh result region content at
issue time, and the issued request. -/
structure ClickResult where
  config : Config
  buttonDisabled : Bool
  region : List String
  requestIssued : Bool
  request : Request
deriving DecidableEq

/-- The errorButton.onclick handler (index.ts lines 156-212) up to issuing
the remote request: when the stored credential is empty the dialog is shown
and its result applied exactly as in applyDialog; in every case the handler
then disables the button, renders the Loading placeholder into a fresh
output area, and issues the request. -/
def clickHandler (cfg : Config) (d : DialogResult) (e : Option String) : ClickResult :=
  let cfg2 := if cfg.SECRET_KEY == "" then applyDialog cfg d else cfg
  { config := cfg2
  , buttonDisabled := true
  , region := ["Loading..."]
  , requestIssued := true
  , request := requestOf cfg2 e }

/-- State of one analysis run: the result region content and the disabled
flag of the control. -/
structure RunState where
  region : List String
  buttonDisabled : Bool
deriving DecidableEq

/-- The state right after the request is issued (index.ts lines 172-181):
button disabled, region holding the Loading placeholder. -/
def startLoading : RunState :=
  { region := ["Loading..."], buttonDisabled := true }

/-- How the remote call settles: resolution with the explanation text or
rejection with an error message. -/
inductive RemoteOutcome where
  | success (text : String)
  | failure (message : String)
deriving DecidableEq

/-- The then and catch handlers (index.ts lines 186-204): on success the
region model is cleared and the result text added; on failure the error
message is added without clearing. -/
def handleOutcome (s : RunState) (o : RemoteOutcome) : RunState :=
  match o with
  | .success text => { s with region := [text] }
  | .failure msg => { s with region := s.region ++ [msg] }

/-- then or catch followed by the finally handler (index.ts lines 205-208),
which re-enables the button. -/
def settle (s : RunState) (o : RemoteOutcome) : RunState :=
  { handleOutcome s o with buttonDisabled := false }

/-- A code cell whose single output is tagged error and carries a payload. -/
def errCell : CellModel :=
  { cellType := "code"
  , outputs := [{ type := "error"
                , data := [("application/vnd.jupyter.stderr", "ZeroDivisionError: division by zero")] }] }

/-- A code cell whose outputs were cleared by a successful re-execution. -/
def clearedCell : CellModel :=
  { cellType := "code", outputs := [] }

/-- A code cell whose first output is tagged error but has no payload under
the expected key. -/
def payloadlessErrCell : CellModel :=
  { cellType := "code", outputs := [{ type := "error", data := [] }] }

/-- A configuration with a non-empty credential. -/
def cfgK : Config :=
  { SECRET_KEY := "sk-test", LANGUAGE := "KR", PROMPT := "P" }

lemma checkFlag_iff (m : CellModel) :
    checkFlag m = true ↔ ∃ o, m.outputs.head? = some o ∧ o.type = "error" := by
  cases h : m.outputs with
  | nil => simp [checkFlag, h]
  | cons o t => simp [checkFlag, h]

lemma scanCell_eq (m : CellModel) (node : CellNode) :
    scanCell m node =
      if m.cellType == "code" && checkFlag m then
        { node with controls := node.controls + 1 }
      else node := by
  unfold scanCell checkForErrors
  cases h1 : (m.cellType == "code") <;> cases h2 : checkFlag m <;> simp [h1, h2]

/-- C1 counterexample: with the default empty credential and a cancelled
configuration dialog, the activation of the control still issues a remote
request, refuting the claim that no request is issued for that activation. -/
theorem c1_counterexample :
    ¬ ((clickHandler defaultConfiguration { accept := false, value := defaultConfiguration }
        (some "E")).requestIssued = false) := by
  decide

/-- C1 (amended): if the credential is empty and the dialog is cancelled, the
stored configuration is left unchanged, but the run does not return to Idle:
the control is disabled, the Loading placeholder is rendered, and the request
is issued with the still empty credential. -/
theorem c1_amended (cfg : Config) (d : DialogResult) (e : Option String)
    (hk : cfg.SECRET_KEY = "") (hd : d.accept = false) :
    (clickHandler cfg d e).config = cfg ∧
    (clickHandler cfg d e).requestIssued = true ∧
    (clickHandler cfg d e).buttonDisabled = true ∧
    (clickHandler cfg d e).region = ["Loading..."] ∧
    (clickHandler cfg d e).request.headers =
      [("Content-Type", "application/json"), ("Authorization", "Bearer " ++ cfg.SECRET_KEY)] := by
  simp [clickHandler, applyDialog, requestOf, buildRequest, hk, hd]

/-- C1 witness: the amended statement evaluated at the default configuration
and a cancelled dialog. -/
theorem c1_witness :
    (clickHandler defaultConfiguration { accept := false, value := cfgK } (some "boom")).config =
      defaultConfiguration ∧
    (clickHandler defaultConfiguration { accept := false, value := cfgK } (some "boom")).requestIssued =
      true ∧
    (clickHandler defaultConfiguration { accept := false, value := cfgK } (some "boom")).buttonDisabled =
      true ∧
    (clickHandler defaultConfiguration { accept := false, value := cfgK } (some "boom")).region =
      ["Loading..."] ∧
    (clickHandler defaultConfiguration { accept := false, value := cfgK } (some "boom")).request.headers =
      [("Content-Type", "application/json"),
       ("Authorization", "Bearer " ++ defaultConfiguration.SECRET_KEY)] :=
  c1_amended defaultConfiguration { accept := false, value := cfgK } (some "boom") rfl rfl

/-- C2: a second scan of a cell whose first output is still tagged error
appends a second Analyze Error control instead of replacing the first, so
after two scans the cell carries two live controls, violating the exactly-one
invariant the specification states. -/
theorem c2_code_bug :
    (scanCell errCell (scanCell errCell (CellNode.mk 0 0))).controls = 2 := by
  decide

/-- C3 counterexample: after the error output is cleared, the scan leaves a
previously attached control and result region in place instead of removing
them. -/
theorem c3_counterexample :
    ¬ ((scanCell clearedCell (CellNode.mk 1 1)).controls = 0 ∧
       (scanCell clearedCell (CellNode.mk 1 1)).resultRegions = 0) := by
  decide

/-- C3 (amended): a scan of a cell whose first output is not tagged error is
a no-op on the render region: existing controls and result regions persist;
nothing is ever removed. -/
theorem c3_amended (m : CellModel) (node : CellNode)
    (h : ∀ o, m.outputs.head? = some o → o.type ≠ "error") :
    scanCell m node = node := by
  have hf : checkFlag m = false := by
    cases hm : m.outputs with
    | nil => simp [checkFlag, hm]
    | cons o t =>
      have ho := h o (by simp [hm])
      simp [checkFlag, hm, ho]
  unfold scanCell checkForErrors
  rw [hf]
  split <;> rfl

/-- C3 witness: the amended statement evaluated at a cleared cell carrying
one stale control and one stale result region. -/
theorem c3_witness :
    scanCell clearedCell (CellNode.mk 1 1) = CellNode.mk 1 1 :=
  c3_amended clearedCell (CellNode.mk 1 1) (by intro o ho; simp [clearedCell] at ho)

/-- C4 counterexample: after a rejection with the message of the 401 scenario
the result region is not cleared first, so it does not show exactly that
message. -/
theorem c4_counterexample :
    ¬ ((settle startLoading (RemoteOutcome.failure "Request failed with status code 401")).region =
        ["Request failed with status code 401"]) := by
  decide

/-- C4 (amended): on the Loading to Failed transition the result region is
not cleared: the caught error message is appended after the Loading
placeholder, so the region shows the placeholder followed by the message;
the control is still re-enabled. -/
theorem c4_amended (m : String) :
    (settle startLoading (RemoteOutcome.failure m)).region = ["Loading...", m] ∧
    (settle startLoading (RemoteOutcome.failure m)).buttonDisabled = false :=
  ⟨rfl, rfl⟩

/-- C5: one scan pass appends exactly one new control iff the cell is a code
cell, its output list is non-empty and its first output entry is tagged
error; when that condition fails, any number of scans leave the render region
unchanged, so no control is ever attached. -/
theorem c5_scan_iff (m : CellModel) (node : CellNode) :
    ((scanCell m node).controls = node.controls + 1 ↔
      (m.cellType = "code" ∧ m.outputs ≠ [] ∧
        ∃ o, m.outputs.head? = some o ∧ o.type = "error")) ∧
    (¬ (m.cellType = "code" ∧ m.outputs ≠ [] ∧
        ∃ o, m.outputs.head? = some o ∧ o.type = "error") →
      ∀ n : Nat, Nat.iterate (scanCell m) n node = node) := by
  have hcond : (m.cellType == "code" && checkFlag m) = true ↔
      (m.cellType = "code" ∧ m.outputs ≠ [] ∧
        ∃ o, m.outputs.head? = some o ∧ o.type = "error") := by
    rw [Bool.and_eq_true, beq_iff_eq, checkFlag_iff]
    constructor
    · rintro ⟨h1, o, ho, ht⟩
      refine ⟨h1, ?_, o, ho, ht⟩
      intro hnil
      rw [hnil] at ho
      exact Option.noConfusion ho
    · rintro ⟨h1, _, o, ho, ht⟩
      exact ⟨h1, o, ho, ht⟩
  constructor
  · rw [scanCell_eq]
    by_cases hb : (m.cellType == "code" && checkFlag m) = true
    · simp only [hb, if_true]
      simpa using hcond.mp hb
    · simp only [hb, if_false]
      constructor
      · intro habs
        exact absurd habs (Nat.ne_of_lt (Nat.lt_succ_self node.controls))
      · intro hc
        exact absurd (hcond.mpr hc) hb
  · intro hnc n
    have hb : (m.cellType == "code" && checkFlag m) = false := by
      cases hb2 : (m.cellType == "code" && checkFlag m) with
      | false => rfl
      | true => exact absurd (hcond.mp hb2) hnc
    induction n with
    | zero => rfl
    | succ k ih =>
      rw [Function.iterate_succ_apply', ih, scanCell_eq, hb]
      simp

/-- C5 witness: the statement evaluated at a cell whose first output is
tagged error and an empty render region. -/
theorem c5_witness :
    ((scanCell errCell (CellNode.mk 0 0)).controls = (CellNode.mk 0 0).controls + 1 ↔
      (errCell.cellType = "code" ∧ errCell.outputs ≠ [] ∧
        ∃ o, errCell.outputs.head? = some o ∧ o.type = "error")) ∧
    (¬ (errCell.cellType = "code" ∧ errCell.outputs ≠ [] ∧
        ∃ o, errCell.outputs.head? = some o ∧ o.type = "error") →
      ∀ n : Nat, Nat.iterate (scanCell errCell) n (CellNode.mk 0 0) = CellNode.mk 0 0) :=
  c5_scan_iff errCell (CellNode.mk 0 0)

/-- C6: accepting the configuration dialog overwrites the stored record with
exactly the typed values; cancelling leaves the previously stored record
unchanged. -/
theorem c6_roundtrip (cfg v : Config) :
    applyDialog cfg { accept := true, value := v } = v ∧
    applyDialog cfg { accept := false, value := v } = cfg :=
  ⟨rfl, rfl⟩

/-- C7: whatever the remote outcome, success or failure, the finally handler
re-enables the control: after settlement the disabled flag is always false. -/
theorem c7_reenable (s : RunState) (o : RemoteOutcome) :
    (settle s o).buttonDisabled = false :=
  rfl

/-- C8 counterexample: with prompt template P and a flagged error output
whose payload is missing, the content of the issued user message is not the
template followed by the empty string. -/
theorem c8_counterexample :
    ¬ ((clickHandler cfgK { accept := false, value := cfgK }
        (errorMessageOf payloadlessErrCell)).request.messages = [("user", "P" ++ "")]) := by
  decide

/-- C8 (amended): a flagged error output with a missing payload does not
block control attachment, but the prompt sent to the remote service is the
template followed by the literal text undefined, produced by JavaScript
string concatenation of an undefined value, not by the empty string. -/
theorem c8_amended (cfg : Config) (d : DialogResult) (m : CellModel) (node : CellNode) (o : Output)
    (hk : cfg.SECRET_KEY ≠ "")
    (hm : m.cellType = "code")
    (ho : m.outputs.head? = some o)
    (he : o.type = "error")
    (hp : o.data.lookup "application/vnd.jupyter.stderr" = none) :
    (scanCell m node).controls = node.controls + 1 ∧
    (clickHandler cfg d (errorMessageOf m)).request.messages =
      [("user", cfg.PROMPT ++ "undefined")] := by
  obtain ⟨os, rest, houts⟩ : ∃ os rest, m.outputs = os :: rest := by
    cases hcase : m.outputs with
    | nil => rw [hcase] at ho; exact Option.noConfusion ho
    | cons a b => exact ⟨a, b, rfl⟩
  have hos : os = o := by
    rw [houts] at ho
    simpa using ho
  subst hos
  constructor
  · rw [scanCell_eq]
    have : (m.cellType == "code" && checkFlag m) = true := by
      rw [Bool.and_eq_true, beq_iff_eq, checkFlag_iff]
      exact ⟨hm, os, ho, he⟩
    rw [this]
    rfl
  · have hmsg : errorMessageOf m = none := by
      unfold errorMessageOf
      rw [houts]
      exact hp
    have hkb : (cfg.SECRET_KEY == "") = false := by
      simpa using hk
    simp [clickHandler, hkb, hmsg, requestOf, buildRequest, mkPrompt]

/-- C8 witness: the amended statement evaluated at a payload-less error cell
and a configuration with a non-empty credential. -/
theorem c8_witness :
    (scanCell payloadlessErrCell (CellNode.mk 0 0)).controls = (CellNode.mk 0 0).controls + 1 ∧
    (clickHandler cfgK { accept := false, value := cfgK }
      (errorMessageOf payloadlessErrCell)).request.messages =
      [("user", cfgK.PROMPT ++ "undefined")] :=
  c8_amended cfgK { accept := false, value := cfgK } payloadlessErrCell (CellNode.mk 0 0)
    { type := "error", data := [] } (by decide) rfl rfl rfl rfl

/-- C9: the issued request goes to the chat completion url with the fixed
model, a single user message whose content is the stored template followed by
the error text, the json content type header and the bearer authorization
header built from the credential; a response with a first choice yields the
content of that choice message as the explanation. -/
theorem c9_request_shape (cfg : Config) (e : String) (r : ApiResponse) (c : Choice)
    (t : List Choice) (hr : r.choices = c :: t) :
    requestOf cfg (some e) =
      { url := "https://api.openai.com/v1/chat/completions"
      , model := "gpt-3.5-turbo"
      , messages := [("user", cfg.PROMPT ++ e)]
      , headers :=
          [ ("Content-Type", "application/json")
          , ("Authorization", "Bearer " ++ cfg.SECRET_KEY) ] } ∧
    extractExplanation r = some c.message.content := by
  constructor
  · rfl
  · simp [extractExplanation, hr]

/-- C9 witness: the request shape and explanation extraction evaluated at a
concrete configuration, error text and single-choice response. -/
theorem c9_witness :
    requestOf cfgK (some "Boom") =
      { url := "https://api.openai.com/v1/chat/completions"
      , model := "gpt-3.5-turbo"
      , messages := [("user", cfgK.PROMPT ++ "Boom")]
      , headers :=
          [ ("Content-Type", "application/json")
          , ("Authorization", "Bearer " ++ cfgK.SECRET_KEY) ] } ∧
    extractExplanation (ApiResponse.mk [Choice.mk (Message.mk "assistant" "explained")]) =
      some (Choice.mk (Message.mk "assistant" "explained")).message.content :=
  c9_request_shape cfgK "Boom" (ApiResponse.mk [Choice.mk (Message.mk "assistant" "explained")])
    (Choice.mk (Message.mk "assistant" "explained")) [] rfl

/-- C10: the stored target language never influences the remote request: two
configurations equal in credential and prompt template but differing in the
language field produce identical request bodies and headers for the same
error text. -/
theorem c10_language_independent (c1 c2 : Config) (e : Option String)
    (hk : c1.SECRET_KEY = c2.SECRET_KEY) (hp : c1.PROMPT = c2.PROMPT) :
    requestOf c1 e = requestOf c2 e := by
  simp [requestOf, buildRequest, mkPrompt, hk, hp]

/-- C10 witness: two configurations differing only in the language field
produce the same request. -/
theorem c10_witness :
    requestOf cfgK (some "E") =
      requestOf { SECRET_KEY := "sk-test", LANGUAGE := "EN", PROMPT := "P" } (some "E") :=
  c10_language_independent cfgK { SECRET_KEY := "sk-test", LANGUAGE := "EN", PROMPT := "P" }
    (some "E") rfl rfl

end Jupylot
